import Mathlib

/-!
Shallow embedding of the collection-history store of an API data
collector/analyzer (src/database/db_manager.py) and of the record
normalizers of its collectors (src/collectors/reddit_collector.py,
src/collectors/hackernews_collector.py).

Modelling conventions:
* SQLite tables are Lean lists of typed rows; `INSERT OR REPLACE` keyed on
  the primary-key column is `upsertBy` (drop any row with the same key,
  then append the new row).
* `ORDER BY c DESC/ASC` is `sortBy` (an insertion sort on a boolean
  comparison; SQLite does not specify the order of ties, the model fixes
  one).
* Timestamps (`datetime.now()` / SQLite `datetime('now', ...)`) are
  integers counting seconds; the current time is passed explicitly as a
  `now` argument to the operations that read the clock.
* Python floats produced by `pandas.mean()` are modelled as exact
  rationals (all the numbers the claims mention are exactly
  representable).
* Python dicts produced by the collectors are typed records whose
  possibly-absent keys are `Option` fields; `dict.get(k, d)` becomes
  `field.getD d`.  The natural-id key is always present in the data the
  collectors produce, so it is a mandatory field.
* Every store operation threads the database state and returns it,
  mirroring the connection open/commit/close structure of the Python
  methods; read-only methods return the state they were given.
-/

/-! ### List machinery: sorting (SQL ORDER BY) and upserts (INSERT OR REPLACE) -/

def insertSorted {α : Type} (le : α → α → Bool) (a : α) : List α → List α
  | [] => [a]
  | b :: l => if le a b then a :: b :: l else b :: insertSorted le a l

def sortBy {α : Type} (le : α → α → Bool) : List α → List α
  | [] => []
  | a :: l => insertSorted le a (sortBy le l)

theorem insertSorted_perm {α : Type} (le : α → α → Bool) (a : α) (l : List α) :
    (insertSorted le a l).Perm (a :: l) := by
  induction l with
  | nil => exact List.Perm.refl _
  | cons b l ih =>
    simp only [insertSorted]
    split
    · exact List.Perm.refl _
    · exact (ih.cons b).trans (List.Perm.swap a b l)

theorem sortBy_perm {α : Type} (le : α → α → Bool) (l : List α) :
    (sortBy le l).Perm l := by
  induction l with
  | nil => exact List.Perm.refl _
  | cons a l ih =>
    exact (insertSorted_perm le a (sortBy le l)).trans (ih.cons a)

theorem mem_insertSorted {α : Type} {le : α → α → Bool} {a x : α} {l : List α} :
    x ∈ insertSorted le a l ↔ x = a ∨ x ∈ l := by
  rw [(insertSorted_perm le a l).mem_iff]
  simp

theorem pairwise_insertSorted {α : Type} {le : α → α → Bool}
    (htot : ∀ a b, le a b = true ∨ le b a = true)
    (htrans : ∀ a b c, le a b = true → le b c = true → le a c = true)
    {a : α} {l : List α} (h : l.Pairwise (fun x y => le x y = true)) :
    (insertSorted le a l).Pairwise (fun x y => le x y = true) := by
  induction l with
  | nil => simp [insertSorted]
  | cons b l ih =>
    simp only [insertSorted]
    rcases List.pairwise_cons.mp h with ⟨hb, hl⟩
    by_cases hab : le a b = true
    · simp only [hab, if_true]
      refine List.pairwise_cons.mpr ⟨?_, h⟩
      intro c hc
      rcases List.mem_cons.mp hc with rfl | hc
      · exact hab
      · exact htrans a b c hab (hb c hc)
    · simp only [hab, if_false]
      refine List.pairwise_cons.mpr ⟨?_, ih hl⟩
      intro c hc
      rcases mem_insertSorted.mp hc with hca | hc
      · rw [hca]
        rcases htot a b with h1 | h1
        · exact absurd h1 hab
        · exact h1
      · exact hb c hc

theorem pairwise_sortBy {α : Type} {le : α → α → Bool}
    (htot : ∀ a b, le a b = true ∨ le b a = true)
    (htrans : ∀ a b c, le a b = true → le b c = true → le a c = true)
    (l : List α) :
    (sortBy le l).Pairwise (fun x y => le x y = true) := by
  induction l with
  | nil => simp [sortBy]
  | cons a l ih => exact pairwise_insertSorted htot htrans ih

/-- `INSERT OR REPLACE` into a table whose primary key is `key`: any
existing row with the same key is dropped, the new row is appended. -/
def upsertBy {α κ : Type} [DecidableEq κ] (key : α → κ) (row : α) (tbl : List α) : List α :=
  tbl.filter (fun r => key r != key row) ++ [row]

theorem filter_upsert_self {α κ : Type} [DecidableEq κ] (key : α → κ) (row : α) (tbl : List α) :
    (upsertBy key row tbl).filter (fun r => key r == key row) = [row] := by
  simp only [upsertBy, List.filter_append, List.filter_filter]
  have h1 : ∀ r : α, ((key r == key row) && (key r != key row)) = false := by
    intro r
    by_cases h : key r = key row <;> simp [h]
  have h2 : tbl.filter (fun r => (key r == key row) && (key r != key row)) = [] := by
    rw [List.filter_congr (fun r _ => h1 r)]
    exact List.filter_false tbl
  rw [h2]
  simp

theorem filter_upsert_ne {α κ : Type} [DecidableEq κ] (key : α → κ) (row : α) (tbl : List α)
    {k : κ} (hk : k ≠ key row) :
    (upsertBy key row tbl).filter (fun r => key r == k) = tbl.filter (fun r => key r == k) := by
  simp only [upsertBy, List.filter_append, List.filter_filter]
  have h1 : ∀ r ∈ tbl, ((key r == k) && (key r != key row)) = (key r == k) := by
    intro r _
    by_cases h : key r = k
    · simp [h, hk]
    · simp [h]
  rw [List.filter_congr h1]
  have h2 : (key row == k) = false := by
    simp [Ne.symm hk]
  simp [h2]

theorem nodup_keys_upsert {α κ : Type} [DecidableEq κ] (key : α → κ) (row : α) {tbl : List α}
    (h : (tbl.map key).Nodup) : ((upsertBy key row tbl).map key).Nodup := by
  simp only [upsertBy, List.map_append, List.map_cons, List.map_nil]
  rw [List.nodup_append]
  refine ⟨?_, List.nodup_singleton _, ?_⟩
  · exact h.sublist ((List.filter_sublist tbl).map key)
  · intro x hx
    simp only [List.mem_map, List.mem_filter] at hx
    rcases hx with ⟨r, ⟨_, hr⟩, rfl⟩
    simp only [List.mem_singleton]
    intro he
    rw [he] at hr
    simp at hr

theorem count_le_one_of_nodup_keys {α κ : Type} [DecidableEq κ] (key : α → κ) {tbl : List α}
    (h : (tbl.map key).Nodup) (k : κ) :
    (tbl.filter (fun r => key r == k)).length ≤ 1 := by
  induction tbl with
  | nil => simp
  | cons a l ih =>
    simp only [List.map_cons, List.nodup_cons] at h
    rcases h with ⟨ha, hl⟩
    by_cases hk : key a = k
    · have hfl : l.filter (fun r => key r == k) = [] := by
        rw [List.filter_eq_nil_iff]
        intro b hb
        simp only [beq_iff_eq]
        intro hbk
        exact ha (List.mem_map.mpr ⟨b, hb, by rw [hbk, hk]⟩)
      simp [List.filter_cons, hk, hfl]
    · simpa [List.filter_cons, hk] using ih hl

/-- Folding a batch of items into a table, upserting each in order (the
loop body shared by the three `_save_*_data` methods). -/
def upsertFold {α κ ι : Type} [DecidableEq κ] (key : α → κ) (mk : ι → α)
    (items : List ι) (tbl : List α) : List α :=
  items.foldl (fun acc it => upsertBy key (mk it) acc) tbl

theorem nodup_keys_upsertFold {α κ ι : Type} [DecidableEq κ] (key : α → κ) (mk : ι → α)
    (items : List ι) {tbl : List α} (h : (tbl.map key).Nodup) :
    ((upsertFold key mk items tbl).map key).Nodup := by
  induction items generalizing tbl with
  | nil => exact h
  | cons it items ih => exact ih (nodup_keys_upsert key (mk it) h)

theorem filter_upsertFold_notin {α κ ι : Type} [DecidableEq κ] (key : α → κ) (mk : ι → α)
    (items : List ι) (tbl : List α) {k : κ} (hk : ∀ it ∈ items, key (mk it) ≠ k) :
    (upsertFold key mk items tbl).filter (fun r => key r == k) =
      tbl.filter (fun r => key r == k) := by
  induction items generalizing tbl with
  | nil => rfl
  | cons it items ih =>
    have h1 := ih (upsertBy key (mk it) tbl) (fun x hx => hk x (List.mem_cons_of_mem it hx))
    have h2 := filter_upsert_ne key (mk it) tbl
      (Ne.symm (hk it (List.mem_cons_self it items)))
    exact h1.trans h2

theorem filter_upsertFold_mem {α κ ι : Type} [DecidableEq κ] (key : α → κ) (mk : ι → α)
    (items : List ι) (tbl : List α) {k : κ} (hk : ∃ it ∈ items, key (mk it) = k) :
    ∃ it ∈ items, key (mk it) = k ∧
      (upsertFold key mk items tbl).filter (fun r => key r == k) = [mk it] := by
  induction items generalizing tbl with
  | nil => simp at hk
  | cons it items ih =>
    by_cases hmem : ∃ x ∈ items, key (mk x) = k
    · rcases ih (upsertBy key (mk it) tbl) hmem with ⟨x, hx, hxk, hfl⟩
      exact ⟨x, List.mem_cons_of_mem it hx, hxk, hfl⟩
    · push_neg at hmem
      rcases hk with ⟨y, hy, hyk⟩
      rcases List.mem_cons.mp hy with rfl | hy2
      · refine ⟨y, List.mem_cons_self y items, hyk, ?_⟩
        have h1 := filter_upsertFold_notin key mk items (upsertBy key (mk y) tbl)
          (fun x hx => hmem x hx)
        rw [upsertFold, List.foldl_cons, ← upsertFold, h1, ← hyk]
        exact filter_upsert_self key (mk y) tbl
      · exact absurd hyk (hmem y hy2)

/-! ### Data model (src/database/db_manager.py, `_init_database`)

One record type per dict shape.  `*Item` records model the Python dicts
handed to `save_collection` (the collectors' output); `*Row` records model
the stored table rows. -/

/-- A normalized reddit post dict (keys produced by
`RedditCollector.collect`; absent keys are `none`). -/
structure RedditItem where
  id : String
  title : Option String
  author : Option String
  score : Option Int
  upvote_ratio : Option ℚ
  num_comments : Option Int
  created_utc : Option ℚ
  url : Option String
  permalink : Option String
  subreddit : Option String
  selftext : Option String
  src_tag : Option String
deriving DecidableEq

/-- A normalized github repository dict. -/
structure GithubItem where
  id : Int
  name : Option String
  full_name : Option String
  description : Option String
  language : Option String
  stars : Option Int
  forks : Option Int
  watchers : Option Int
  open_issues : Option Int
  created_at : Option String
  updated_at : Option String
  pushed_at : Option String
  size : Option Int
  url : Option String
  license : Option String
  topics : Option (List String)
deriving DecidableEq

/-- A normalized hackernews story dict (keys produced by
`HackerNewsCollector.collect`). -/
structure HNItem where
  id : Int
  title : Option String
  by_user : Option String
  score : Option Int
  descendants : Option Int
  time : Option Int
  url : Option String
  text : Option String
  src_tag : Option String
deriving DecidableEq

/-- A row of the `reddit_posts` table (primary key `id`). -/
structure RedditRow where
  id : String
  session_id : Nat
  title : Option String
  author : Option String
  score : Int
  upvote_ratio : Option ℚ
  num_comments : Int
  created_utc : Option ℚ
  url : Option String
  permalink : Option String
  subreddit : Option String
  selftext : String
  collected_at : Int
deriving DecidableEq

/-- A row of the `github_repos` table (primary key `id`). -/
structure GithubRow where
  id : Int
  session_id : Nat
  name : Option String
  full_name : Option String
  description : Option String
  language : Option String
  stars : Int
  forks : Int
  watchers : Int
  open_issues : Int
  created_at : Option String
  updated_at : Option String
  pushed_at : Option String
  size : Int
  url : Option String
  license : Option String
  topics : Option (List String)
  collected_at : Int
deriving DecidableEq

/-- A row of the `hackernews_stories` table (primary key `id`); the
source column `by` is called `by_user` here (`by` is a Lean keyword). -/
structure HNRow where
  id : Int
  session_id : Nat
  title : Option String
  by_user : Option String
  score : Int
  descendants : Int
  time : Option Int
  url : String
  text : String
  collected_at : Int
deriving DecidableEq

/-- A row of the `collection_sessions` table.  `id` is the AUTOINCREMENT
primary key; `created_at` (`DEFAULT CURRENT_TIMESTAMP`) coincides with the
insertion time. -/
structure SessionRow where
  id : Nat
  source : String
  collected_at : Int
  item_count : Nat
  metadata : Option String
  created_at : Int
deriving DecidableEq

/-- The whole SQLite database.  `next_session_id` models the
AUTOINCREMENT counter of `collection_sessions` (ids start at 1 and are
never reused). -/
structure DB where
  next_session_id : Nat
  sessions : List SessionRow
  reddit_posts : List RedditRow
  github_repos : List GithubRow
  hackernews_stories : List HNRow
deriving DecidableEq

/-- The freshly initialised database (`_init_database` creates the empty
tables). -/
def emptyDB : DB :=
  { next_session_id := 1
    sessions := []
    reddit_posts := []
    github_repos := []
    hackernews_stories := [] }

/-- A batch handed to `save_collection`: a list of per-source dicts.  The
Python `data` argument is an untyped `List[Dict]`; the type of its
elements is determined by the pipeline that produced them, which this
embedding makes explicit.  (A batch whose dict shape does not match the
`source` string would be stored as rows of nulls by the Python code;
that mismatch is not modelled and not needed by any claim.) -/
inductive Batch
  | reddit (items : List RedditItem)
  | github (items : List GithubItem)
  | hackernews (items : List HNItem)
deriving DecidableEq

/-- `len(data)` for a batch. -/
def Batch.size : Batch → Nat
  | .reddit items => items.length
  | .github items => items.length
  | .hackernews items => items.length

/-! ### Write path (`save_collection` and the `_save_*_data` helpers) -/

/-- The `reddit_posts` row written for one dict by `_save_reddit_data`
(`INSERT OR REPLACE`, defaults per the `item.get` calls). -/
def redditRowOf (session_id : Nat) (collected_at : Int) (item : RedditItem) : RedditRow :=
  { id := item.id
    session_id := session_id
    title := item.title
    author := item.author
    score := item.score.getD 0
    upvote_ratio := RedditItem.upvote_ratio item
    num_comments := item.num_comments.getD 0
    created_utc := item.created_utc
    url := item.url
    permalink := item.permalink
    subreddit := item.subreddit
    selftext := item.selftext.getD ""
    collected_at := collected_at }

/-- The `github_repos` row written for one dict by `_save_github_data`.
`topics` models `json.dumps(item.get('topics', [])) if item.get('topics')
else None`: a missing or empty list is stored as NULL, the JSON encoding
of a non-empty list is abstracted by the list itself. -/
def githubRowOf (session_id : Nat) (collected_at : Int) (item : GithubItem) : GithubRow :=
  { id := item.id
    session_id := session_id
    name := item.name
    full_name := item.full_name
    description := item.description
    language := item.language
    stars := item.stars.getD 0
    forks := item.forks.getD 0
    watchers := item.watchers.getD 0
    open_issues := item.open_issues.getD 0
    created_at := item.created_at
    updated_at := item.updated_at
    pushed_at := item.pushed_at
    size := item.size.getD 0
    url := item.url
    license := item.license
    topics := match item.topics with
      | some ts => if ts.isEmpty then none else some ts
      | none => none
    collected_at := collected_at }

/-- The `hackernews_stories` row written for one dict by
`_save_hackernews_data`. -/
def hnRowOf (session_id : Nat) (collected_at : Int) (item : HNItem) : HNRow :=
  { id := item.id
    session_id := session_id
    title := item.title
    by_user := item.by_user
    score := item.score.getD 0
    descendants := item.descendants.getD 0
    time := item.time
    url := item.url.getD ""
    text := item.text.getD ""
    collected_at := collected_at }

/-- `_save_reddit_data`: upsert every dict of the batch, in order, keyed
by the natural id. -/
def _save_reddit_data (data : List RedditItem) (session_id : Nat) (collected_at : Int)
    (tbl : List RedditRow) : List RedditRow :=
  upsertFold RedditRow.id (redditRowOf session_id collected_at) data tbl

/-- `_save_github_data`. -/
def _save_github_data (data : List GithubItem) (session_id : Nat) (collected_at : Int)
    (tbl : List GithubRow) : List GithubRow :=
  upsertFold GithubRow.id (githubRowOf session_id collected_at) data tbl

/-- `_save_hackernews_data`. -/
def _save_hackernews_data (data : List HNItem) (session_id : Nat) (collected_at : Int)
    (tbl : List HNRow) : List HNRow :=
  upsertFold HNRow.id (hnRowOf session_id collected_at) data tbl

/-- `save_collection(data, source, metadata)`.  Returns the new session
id, or `none` for an empty batch (`if not data: return None` — no session
row is created in that case).  The session row is inserted first (its id
is `cursor.lastrowid`), then the per-source rows; a `source` string
outside the three known tags matches no `_save_*` branch, so only the
session row is written.  `now` is `datetime.now()`. -/
def save_collection (data : Batch) (source : String) (metadata : Option String)
    (now : Int) (db : DB) : Option Nat × DB :=
  if data.size = 0 then
    (none, db)
  else
    let session_id := db.next_session_id
    let srow : SessionRow :=
      { id := session_id
        source := source
        collected_at := now
        item_count := data.size
        metadata := metadata
        created_at := now }
    let db1 : DB :=
      { db with
          next_session_id := session_id + 1
          sessions := db.sessions ++ [srow] }
    let db2 : DB :=
      if source = "reddit" then
        match data with
        | .reddit items =>
          { db1 with reddit_posts := _save_reddit_data items session_id now db1.reddit_posts }
        | _ => db1
      else if source = "github" then
        match data with
        | .github items =>
          { db1 with github_repos := _save_github_data items session_id now db1.github_repos }
        | _ => db1
      else if source = "hackernews" then
        match data with
        | .hackernews items =>
          { db1 with
              hackernews_stories := _save_hackernews_data items session_id now db1.hackernews_stories }
        | _ => db1
      else
        db1
    (some session_id, db2)

/-! ### Read path -/

/-- `get_latest_session(source)`: the session with maximal `collected_at`
for the source (`ORDER BY collected_at DESC LIMIT 1`). -/
def get_latest_session (source : String) (db : DB) : Option SessionRow × DB :=
  ((sortBy (fun a b => decide (b.collected_at ≤ a.collected_at))
      (db.sessions.filter (fun s => s.source == source))).head?, db)

/-- The rows `get_session_data` reads for a reddit session
(`SELECT * FROM reddit_posts WHERE session_id = ? ORDER BY score DESC`). -/
def reddit_session_rows (session_id : Nat) (db : DB) : List RedditRow :=
  sortBy (fun a b => decide (b.score ≤ a.score))
    (db.reddit_posts.filter (fun r => r.session_id == session_id))

/-- The rows `get_session_data` reads for a github session
(`ORDER BY stars DESC`). -/
def github_session_rows (session_id : Nat) (db : DB) : List GithubRow :=
  sortBy (fun a b => decide (b.stars ≤ a.stars))
    (db.github_repos.filter (fun r => r.session_id == session_id))

/-- The rows `get_session_data` reads for a hackernews session
(`ORDER BY score DESC`). -/
def hackernews_session_rows (session_id : Nat) (db : DB) : List HNRow :=
  sortBy (fun a b => decide (b.score ≤ a.score))
    (db.hackernews_stories.filter (fun r => r.session_id == session_id))

/-- An element of the `List[Dict]` returned by `get_session_data` (the
dict shape depends on the table the branch read). -/
inductive ItemRow
  | reddit (r : RedditRow)
  | github (r : GithubRow)
  | hackernews (r : HNRow)
deriving DecidableEq

/-- The natural id carried by a returned row (reddit ids are strings,
github/hackernews ids are integers). -/
def ItemRow.naturalId : ItemRow → String ⊕ Int
  | .reddit r => .inl r.id
  | .github r => .inr r.id
  | .hackernews r => .inr r.id

/-- `get_session_data(session_id, source)`: all items whose owning
session is `session_id`, ordered by the source's ranking field
descending; the `else` branch returns `[]` for any unrecognized source. -/
def get_session_data (session_id : Nat) (source : String) (db : DB) : List ItemRow × DB :=
  if source = "reddit" then
    ((reddit_session_rows session_id db).map ItemRow.reddit, db)
  else if source = "github" then
    ((github_session_rows session_id db).map ItemRow.github, db)
  else if source = "hackernews" then
    ((hackernews_session_rows session_id db).map ItemRow.hackernews, db)
  else
    ([], db)

/-- `get_recent_sessions(source, limit)`
(`ORDER BY collected_at DESC LIMIT ?`).  SQLite treats a negative LIMIT
as "no limit", so a negative `limit` returns every session of the
source; `LIMIT 0` returns no rows.  The code performs no check on
`limit`. -/
def get_recent_sessions (source : String) (limit : Int) (db : DB) : List SessionRow × DB :=
  let sorted := sortBy (fun a b => decide (b.collected_at ≤ a.collected_at))
    (db.sessions.filter (fun s => s.source == source))
  (if limit < 0 then sorted else sorted.take limit.toNat, db)

/-! ### Comparison (`compare_sessions` and the `_compare_*` helpers) -/

/-- `pandas` arithmetic mean of an integer column, as an exact rational.
(Only applied to non-empty columns by the code below.) -/
def intMean (l : List Int) : ℚ :=
  (l.map (fun n : Int => (n : ℚ))).sum / l.length

/-- One `{'session1_mean': .., 'session2_mean': .., 'change': ..,
'change_percent': ..}` block of a `_compare_*` result.  Note the code
guards the percent with `mean > 0` (not `!= 0`). -/
structure MetricCompare where
  session1_mean : ℚ
  session2_mean : ℚ
  change : ℚ
  change_percent : ℚ
deriving DecidableEq

/-- The block the three `_compare_*` helpers build for one numeric
field, given the two columns. -/
def metricCompare (col1 col2 : List Int) : MetricCompare :=
  let m1 := intMean col1
  let m2 := intMean col2
  { session1_mean := m1
    session2_mean := m2
    change := m2 - m1
    change_percent := if 0 < m1 then (m2 - m1) / m1 * 100 else 0 }

/-- `_compare_reddit(data1, data2)`: the two metric blocks, keyed as in
the Python dict.  (The `'score' in df.columns` guards always hold here:
the dataframes are built from non-empty lists of full row dicts.) -/
def _compare_reddit (data1 data2 : List RedditRow) : List (String × MetricCompare) :=
  [("score", metricCompare (data1.map RedditRow.score) (data2.map RedditRow.score)),
   ("comments",
     metricCompare (data1.map RedditRow.num_comments) (data2.map RedditRow.num_comments))]

/-- `_compare_github(data1, data2)`. -/
def _compare_github (data1 data2 : List GithubRow) : List (String × MetricCompare) :=
  [("stars", metricCompare (data1.map GithubRow.stars) (data2.map GithubRow.stars)),
   ("forks", metricCompare (data1.map GithubRow.forks) (data2.map GithubRow.forks))]

/-- `_compare_hackernews(data1, data2)`. -/
def _compare_hackernews (data1 data2 : List HNRow) : List (String × MetricCompare) :=
  [("score", metricCompare (data1.map HNRow.score) (data2.map HNRow.score)),
   ("comments",
     metricCompare (data1.map HNRow.descendants) (data2.map HNRow.descendants))]

/-- The comparison dict built by `compare_sessions` on its success path
(`metrics` holds the keys merged in by `comparison.update(...)`). -/
structure Comparison where
  source : String
  session1_id : Nat
  session2_id : Nat
  session1_count : Nat
  session2_count : Nat
  count_change : Int
  count_change_percent : ℚ
  metrics : List (String × MetricCompare)
deriving DecidableEq

/-- The value `compare_sessions` returns: either the comparison dict or
the `{'error': ...}` dict it substitutes when either session has no
data. -/
inductive CompareResult
  | err (msg : String)
  | ok (c : Comparison)
deriving DecidableEq

/-- `compare_sessions(source, session_id1, session_id2)`.  Loads both
sessions via `get_session_data`; returns the error dict if either list
is empty; otherwise builds the count fields (percent guarded by
`len(data1) > 0`) and merges in the per-source metric blocks.  The
per-source branches are resolved against the same per-table reads that
`get_session_data` performs for that source. -/
def compare_sessions (source : String) (session_id1 session_id2 : Nat) (db : DB) :
    CompareResult × DB :=
  let data1 := (get_session_data session_id1 source db).1
  let data2 := (get_session_data session_id2 source db).1
  if data1.isEmpty || data2.isEmpty then
    (.err "세션 데이터를 찾을 수 없습니다.", db)
  else
    let metrics :=
      if source = "reddit" then
        _compare_reddit (reddit_session_rows session_id1 db)
          (reddit_session_rows session_id2 db)
      else if source = "github" then
        _compare_github (github_session_rows session_id1 db)
          (github_session_rows session_id2 db)
      else if source = "hackernews" then
        _compare_hackernews (hackernews_session_rows session_id1 db)
          (hackernews_session_rows session_id2 db)
      else
        []
    (.ok
      { source := source
        session1_id := session_id1
        session2_id := session_id2
        session1_count := data1.length
        session2_count := data2.length
        count_change := (data2.length : Int) - (data1.length : Int)
        count_change_percent :=
          if 0 < data1.length then
            (((data2.length : ℚ) - (data1.length : ℚ)) / (data1.length : ℚ)) * 100
          else 0
        metrics := metrics }, db)

/-- Projection used to state claims about a comparison that may have
failed. -/
def CompareResult.countChange : CompareResult → Option Int
  | .err _ => none
  | .ok c => some c.count_change

/-- Projection: the percent change of the item count. -/
def CompareResult.countChangePercent : CompareResult → Option ℚ
  | .err _ => none
  | .ok c => some c.count_change_percent

/-- Projection: the metric block stored under `key`, if the comparison
succeeded. -/
def CompareResult.metric (res : CompareResult) (key : String) : Option MetricCompare :=
  match res with
  | .err _ => none
  | .ok c => c.metrics.lookup key

/-! ### Trend (`get_trend_data`) and statistics (`get_statistics`) -/

/-- Seconds in a day (the unit of the `'-N days'` SQLite modifier). -/
def secondsPerDay : Int := 86400

/-- One entry of the list `get_trend_data` returns. -/
structure TrendItem where
  date : Int
  session_id : Nat
  count : Nat
  avgs : List (String × ℚ)
deriving DecidableEq

/-- The loop body of `get_trend_data` for one selected session: a
session whose item list is empty is skipped (`if not session_data:
continue`, yielding `none`), otherwise its count and the per-source
column means are emitted.  An unrecognized source always has empty
session data, so it yields no entry. -/
def trendEntry (source : String) (db : DB) (s : SessionRow) : Option TrendItem :=
  if source = "reddit" then
      let rows := reddit_session_rows s.id db
      if rows.isEmpty then none
      else some
        { date := s.collected_at
          session_id := s.id
          count := rows.length
          avgs := [("avg_score", intMean (rows.map RedditRow.score)),
                   ("avg_comments", intMean (rows.map RedditRow.num_comments))] }
    else if source = "github" then
      let rows := github_session_rows s.id db
      if rows.isEmpty then none
      else some
        { date := s.collected_at
          session_id := s.id
          count := rows.length
          avgs := [("avg_stars", intMean (rows.map GithubRow.stars)),
                   ("avg_forks", intMean (rows.map GithubRow.forks))] }
    else if source = "hackernews" then
      let rows := hackernews_session_rows s.id db
      if rows.isEmpty then none
      else some
        { date := s.collected_at
          session_id := s.id
          count := rows.length
          avgs := [("avg_score", intMean (rows.map HNRow.score)),
                   ("avg_comments", intMean (rows.map HNRow.descendants))] }
    else none

/-- `get_trend_data(source, days)`: sessions of the source with
`collected_at >= datetime('now', '-days days')` (only a lower bound in
the SQL), ordered ascending by `collected_at`, each mapped through
`trendEntry`. -/
def get_trend_data (source : String) (days : Nat) (now : Int) (db : DB) :
    List TrendItem × DB :=
  ((sortBy (fun a b => decide (a.collected_at ≤ b.collected_at))
    (db.sessions.filter
      (fun s => s.source == source &&
        decide (now - (days : Int) * secondsPerDay ≤ s.collected_at)))).filterMap
    (trendEntry source db), db)

/-- The snapshot `get_statistics` returns. -/
structure Statistics where
  sessions_by_source : List (String × Nat)
  total_reddit_posts : Nat
  total_github_repos : Nat
  total_hackernews_stories : Nat
  last_collected : List (String × Option Int)
deriving DecidableEq

/-- The distinct `source` values present in `collection_sessions`, in
ascending order (the grouping key order of `GROUP BY source`). -/
def groupSources (db : DB) : List String :=
  sortBy (fun a b => decide (a ≤ b)) (db.sessions.map SessionRow.source).dedup

/-- `get_statistics()`: session count per source, total row count per
item table, and the maximal `collected_at` per source. -/
def get_statistics (db : DB) : Statistics × DB :=
  ({ sessions_by_source :=
      (groupSources db).map (fun src =>
        (src, (db.sessions.filter (fun s => s.source == src)).length))
     total_reddit_posts := db.reddit_posts.length
     total_github_repos := db.github_repos.length
     total_hackernews_stories := db.hackernews_stories.length
     last_collected :=
      (groupSources db).map (fun src =>
        (src, ((db.sessions.filter (fun s => s.source == src)).map
          SessionRow.collected_at).max?)) }, db)

/-! ### Record normalizers (src/collectors) -/

/-- The raw reddit post payload (`post.get('data', {})`) — the keys the
collector reads, each possibly absent.  The natural id is always present
in the listings the collector consumes. -/
structure RedditRaw where
  id : String
  title : Option String
  author : Option String
  score : Option Int
  upvote_ratio : Option ℚ
  num_comments : Option Int
  created_utc : Option ℚ
  url : Option String
  permalink : Option String
  subreddit : Option String
  selftext : Option String
deriving DecidableEq

/-- The dict `RedditCollector.collect` appends for one post
(reddit_collector.py lines 57-70); `selftext` is truncated with
`[:500]`. -/
def redditNormalize (post_data : RedditRaw) : RedditItem :=
  { id := post_data.id
    title := post_data.title
    author := post_data.author
    score := some (post_data.score.getD 0)
    upvote_ratio := some ((RedditRaw.upvote_ratio post_data).getD 0)
    num_comments := some (post_data.num_comments.getD 0)
    created_utc := post_data.created_utc
    url := post_data.url
    permalink := some ("https://reddit.com" ++ post_data.permalink.getD "")
    subreddit := post_data.subreddit
    selftext := some ((post_data.selftext.getD "").take 500)
    src_tag := some "reddit" }

/-- The raw hackernews item payload. -/
structure HNRaw where
  id : Int
  title : Option String
  by_user : Option String
  score : Option Int
  descendants : Option Int
  time : Option Int
  url : Option String
  text : Option String
deriving DecidableEq

/-- The dict `HackerNewsCollector.collect` appends for one story
(hackernews_collector.py lines 61-71); the body text is
`item.get('text', '')[:500] if item.get('text') else ''` (both a missing
key and an empty string are falsy). -/
def hnNormalize (item : HNRaw) : HNItem :=
  { id := item.id
    title := some (item.title.getD "")
    by_user := some (item.by_user.getD "")
    score := some (item.score.getD 0)
    descendants := some (item.descendants.getD 0)
    time := item.time
    url := some (item.url.getD "")
    text := some (match item.text with
      | some t => if t.isEmpty then "" else t.take 500
      | none => "")
    src_tag := some "hackernews" }

/-! ### Reachable database states -/

/-- The states producible by the store's only write operation, starting
from the freshly initialised database. -/
inductive Reachable : DB → Prop
  | init : Reachable emptyDB
  | step (data : Batch) (source : String) (metadata : Option String) (now : Int)
      {db : DB} (h : Reachable db) :
      Reachable (save_collection data source metadata now db).2

theorem string_length_eq_data_length (s : String) : s.length = s.data.length := rfl

/-- An empty batch is rejected before anything is written
(`if not data: return None`). -/
theorem save_collection_empty (data : Batch) (source : String) (metadata : Option String)
    (now : Int) (db : DB) (h : data.size = 0) :
    save_collection data source metadata now db = (none, db) := by
  simp [save_collection, h]

/-- The session row appended by a non-empty `save_collection` call, and
the returned id. -/
theorem save_collection_sessions (data : Batch) (source : String) (metadata : Option String)
    (now : Int) (db : DB) (h : data.size ≠ 0) :
    (save_collection data source metadata now db).1 = some db.next_session_id ∧
    (save_collection data source metadata now db).2.sessions =
      db.sessions ++
        [{ id := db.next_session_id, source := source, collected_at := now,
           item_count := data.size, metadata := metadata, created_at := now }] ∧
    (save_collection data source metadata now db).2.next_session_id =
      db.next_session_id + 1 := by
  unfold save_collection
  simp only [h, if_false]
  by_cases h1 : source = "reddit"
  · cases data <;> simp [h1]
  · by_cases h2 : source = "github"
    · cases data <;> simp [h1, h2]
    · by_cases h3 : source = "hackernews"
      · cases data <;> simp [h1, h2, h3]
      · cases data <;> simp [h1, h2, h3]

/-- The `reddit_posts` table after `save_collection`: unchanged, unless
the call was a non-empty reddit batch for source `"reddit"`. -/
theorem save_collection_reddit_posts (data : Batch) (source : String)
    (metadata : Option String) (now : Int) (db : DB) :
    (save_collection data source metadata now db).2.reddit_posts = db.reddit_posts ∨
    ∃ items, data = Batch.reddit items ∧ source = "reddit" ∧
      (save_collection data source metadata now db).2.reddit_posts =
        _save_reddit_data items db.next_session_id now db.reddit_posts := by
  unfold save_collection
  by_cases hsz : data.size = 0
  · left; simp [hsz]
  · simp only [hsz, if_false]
    by_cases h1 : source = "reddit"
    · cases data with
      | reddit items => right; exact ⟨items, rfl, h1, by simp [h1]⟩
      | github items => left; simp [h1]
      | hackernews items => left; simp [h1]
    · left
      by_cases h2 : source = "github"
      · cases data <;> simp [h1, h2]
      · by_cases h3 : source = "hackernews"
        · cases data <;> simp [h1, h2, h3]
        · cases data <;> simp [h1, h2, h3]

/-- The `github_repos` table after `save_collection`. -/
theorem save_collection_github_repos (data : Batch) (source : String)
    (metadata : Option String) (now : Int) (db : DB) :
    (save_collection data source metadata now db).2.github_repos = db.github_repos ∨
    ∃ items, data = Batch.github items ∧ source = "github" ∧
      (save_collection data source metadata now db).2.github_repos =
        _save_github_data items db.next_session_id now db.github_repos := by
  unfold save_collection
  by_cases hsz : data.size = 0
  · left; simp [hsz]
  · simp only [hsz, if_false]
    by_cases h1 : source = "reddit"
    · left; cases data <;> simp [h1]
    · by_cases h2 : source = "github"
      · cases data with
        | github items => right; exact ⟨items, rfl, h2, by simp [h1, h2]⟩
        | reddit items => left; simp [h1, h2]
        | hackernews items => left; simp [h1, h2]
      · left
        by_cases h3 : source = "hackernews"
        · cases data <;> simp [h1, h2, h3]
        · cases data <;> simp [h1, h2, h3]

/-- The `hackernews_stories` table after `save_collection`. -/
theorem save_collection_hackernews_stories (data : Batch) (source : String)
    (metadata : Option String) (now : Int) (db : DB) :
    (save_collection data source metadata now db).2.hackernews_stories =
      db.hackernews_stories ∨
    ∃ items, data = Batch.hackernews items ∧ source = "hackernews" ∧
      (save_collection data source metadata now db).2.hackernews_stories =
        _save_hackernews_data items db.next_session_id now db.hackernews_stories := by
  unfold save_collection
  by_cases hsz : data.size = 0
  · left; simp [hsz]
  · simp only [hsz, if_false]
    by_cases h1 : source = "reddit"
    · left; cases data <;> simp [h1]
    · by_cases h2 : source = "github"
      · left; cases data <;> simp [h1, h2]
      · by_cases h3 : source = "hackernews"
        · cases data with
          | hackernews items => right; exact ⟨items, rfl, h3, by simp [h1, h2, h3]⟩
          | reddit items => left; simp [h1, h2, h3]
          | github items => left; simp [h1, h2, h3]
        · left; cases data <;> simp [h1, h2, h3]

/-- The per-source item tables of any reachable state have pairwise
distinct natural ids. -/
theorem reachable_nodup_ids {db : DB} (h : Reachable db) :
    (db.reddit_posts.map RedditRow.id).Nodup ∧
    (db.github_repos.map GithubRow.id).Nodup ∧
    (db.hackernews_stories.map HNRow.id).Nodup := by
  induction h with
  | init => simp [emptyDB]
  | step data source metadata now h ih =>
    rcases ih with ⟨hr, hg, hh⟩
    refine ⟨?_, ?_, ?_⟩
    · rcases save_collection_reddit_posts data source metadata now _ with heq | ⟨items, _, _, heq⟩
      · rw [heq]; exact hr
      · rw [heq]; exact nodup_keys_upsertFold _ _ items hr
    · rcases save_collection_github_repos data source metadata now _ with heq | ⟨items, _, _, heq⟩
      · rw [heq]; exact hg
      · rw [heq]; exact nodup_keys_upsertFold _ _ items hg
    · rcases save_collection_hackernews_stories data source metadata now _
        with heq | ⟨items, _, _, heq⟩
      · rw [heq]; exact hh
      · rw [heq]; exact nodup_keys_upsertFold _ _ items hh

/-! ### Concrete batches and states used by the claim instances -/

/-- A github dict carrying only the fields the claims inspect. -/
def ghItem (i stars forks : Int) : GithubItem :=
  { id := i, name := none, full_name := none, description := none, language := none
    stars := some stars, forks := some forks, watchers := none, open_issues := none
    created_at := none, updated_at := none, pushed_at := none, size := none
    url := none, license := none, topics := none }

/-- A reddit dict carrying only the fields the claims inspect. -/
def rdItem (i : String) (score comments : Int) : RedditItem :=
  { id := i, title := none, author := none, score := some score, upvote_ratio := none
    num_comments := some comments, created_utc := none, url := none, permalink := none
    subreddit := none, selftext := none, src_tag := some "reddit" }

/-- Session A of the spec's github scenario. -/
def c1ItemsA : List GithubItem := [ghItem 1 10 2, ghItem 2 5 1]

/-- Session B of the spec's github scenario. -/
def c1ItemsB : List GithubItem := [ghItem 1 15 3, ghItem 3 8 0]

/-- The state after creating session A (id 1, at time 100). -/
def c1dbA : DB := (save_collection (.github c1ItemsA) "github" none 100 emptyDB).2

/-- The state after also creating session B (id 2, at time 200). -/
def c1db : DB := (save_collection (.github c1ItemsB) "github" none 200 c1dbA).2

/-- A reddit state with session 1 (one post of score -5, at time 100)
and session 2 (one post of score 10, at time 200). -/
def c8db : DB :=
  (save_collection (.reddit [rdItem "b" 10 0]) "reddit" none 200
    ((save_collection (.reddit [rdItem "a" (-5) 0]) "reddit" none 100 emptyDB).2)).2

/-- A state produced by saving a non-empty batch under the unknown
source tag `"bogus"`. -/
def c3db : DB := (save_collection (.github [ghItem 7 1 1]) "bogus" none 100 emptyDB).2

/-- C2: for every source and metadata, `save_collection` on an empty
batch returns `None` — the store's rejection of the batch, the
`EmptyBatch` failure of the design — leaves the state unchanged, creates
no session row, and so leaves the `get_statistics` snapshot (in
particular the per-source session counts) unchanged. -/
theorem c2_empty_batch_rejected (data : Batch) (source : String) (metadata : Option String)
    (now : Int) (db : DB) (h : data.size = 0) :
    (save_collection data source metadata now db).1 = none ∧
    (save_collection data source metadata now db).2 = db ∧
    (save_collection data source metadata now db).2.sessions = db.sessions ∧
    (get_statistics (save_collection data source metadata now db).2).1 =
      (get_statistics db).1 := by
  rw [save_collection_empty data source metadata now db h]
  exact ⟨rfl, rfl, rfl, rfl⟩

/-- C2 witness: the empty reddit batch at a concrete state. -/
theorem c2_empty_batch_rejected_witness :
    (Batch.reddit []).size = 0 ∧
    ((save_collection (.reddit []) "reddit" none 300 c1db).1 = none ∧
     (save_collection (.reddit []) "reddit" none 300 c1db).2 = c1db ∧
     (save_collection (.reddit []) "reddit" none 300 c1db).2.sessions = c1db.sessions ∧
     (get_statistics (save_collection (.reddit []) "reddit" none 300 c1db).2).1 =
       (get_statistics c1db).1) :=
  ⟨rfl, c2_empty_batch_rejected (.reddit []) "reddit" none 300 c1db rfl⟩

/-- C10: every read operation returns the database unchanged; only
`save_collection` (with a non-empty batch) modifies it. -/
theorem c10_reads_leave_state_unchanged :
    (∀ source db, (get_latest_session source db).2 = db) ∧
    (∀ sid source db, (get_session_data sid source db).2 = db) ∧
    (∀ source limit db, (get_recent_sessions source limit db).2 = db) ∧
    (∀ db, (get_statistics db).2 = db) ∧
    (∀ source days now db, (get_trend_data source days now db).2 = db) ∧
    (∀ source sid1 sid2 db, (compare_sessions source sid1 sid2 db).2 = db) ∧
    (∀ data source metadata now db, data.size ≠ 0 →
      (save_collection data source metadata now db).2 ≠ db) := by
  refine ⟨fun source db => rfl, ?_, fun source limit db => rfl, fun db => rfl,
    fun source days now db => rfl, ?_, ?_⟩
  · intro sid source db
    unfold get_session_data
    split_ifs <;> rfl
  · intro source sid1 sid2 db
    show (if ((get_session_data sid1 source db).1.isEmpty ||
        (get_session_data sid2 source db).1.isEmpty) = true
      then ((CompareResult.err "세션 데이터를 찾을 수 없습니다.", db) : CompareResult × DB)
      else _).2 = db
    split <;> rfl
  · intro data source metadata now db h heq
    have h2 := (save_collection_sessions data source metadata now db h).2.1
    rw [heq] at h2
    have h3 := congrArg List.length h2
    simp at h3

/-- C10 witness: the reads at a concrete populated state, and a concrete
non-empty save that does change the state. -/
theorem c10_reads_leave_state_unchanged_witness :
    (get_latest_session "github" c1db).2 = c1db ∧
    (get_session_data 2 "github" c1db).2 = c1db ∧
    (get_recent_sessions "github" 5 c1db).2 = c1db ∧
    (get_statistics c1db).2 = c1db ∧
    (get_trend_data "github" 7 200 c1db).2 = c1db ∧
    (compare_sessions "github" 1 2 c1db).2 = c1db ∧
    ((Batch.github c1ItemsA).size ≠ 0 ∧
      (save_collection (.github c1ItemsA) "github" none 100 emptyDB).2 ≠ emptyDB) :=
  ⟨c10_reads_leave_state_unchanged.1 "github" c1db,
   c10_reads_leave_state_unchanged.2.1 2 "github" c1db,
   c10_reads_leave_state_unchanged.2.2.1 "github" 5 c1db,
   c10_reads_leave_state_unchanged.2.2.2.1 c1db,
   c10_reads_leave_state_unchanged.2.2.2.2.1 "github" 7 200 c1db,
   c10_reads_leave_state_unchanged.2.2.2.2.2.1 "github" 1 2 c1db,
   by decide,
   c10_reads_leave_state_unchanged.2.2.2.2.2.2 (.github c1ItemsA) "github" none 100 emptyDB
     (by decide)⟩

/-- C3 counterexample: the unknown source tag `"bogus"` is rejected
nowhere.  `save_collection` accepts it — it returns a session id and
inserts a session row carrying the unknown tag — and `get_session_data`
returns the empty list for it, the same ordinary value it returns for a
recognized source whose session does not exist, instead of failing. -/
theorem c3_counterexample :
    (save_collection (.github [ghItem 7 1 1]) "bogus" none 100 emptyDB).1 = some 1 ∧
    c3db.sessions.length = 1 ∧
    (∀ s ∈ c3db.sessions, s.source = "bogus") ∧
    (get_session_data 1 "bogus" c3db).1 = [] ∧
    (get_session_data 999 "github" c3db).1 = [] := by
  refine ⟨by decide, by decide, by decide, by decide, by decide⟩

/-- C3 amended: no entry point rejects an unrecognized source tag.
`get_session_data` on an unrecognized source returns the empty sequence
— indistinguishable from its answer for a recognized source whose
session has no items or does not exist — and `save_collection` accepts
an unrecognized source, creating a session row tagged with it (and
storing no items).  For a recognized source whose session has no stored
items, the result is the empty sequence, not an error. -/
theorem c3_unknown_source_not_rejected (source : String) (h1 : source ≠ "reddit")
    (h2 : source ≠ "github") (h3 : source ≠ "hackernews") :
    (∀ sid db, get_session_data sid source db = ([], db)) ∧
    (∀ (data : Batch) metadata now (db : DB), data.size ≠ 0 →
      (save_collection data source metadata now db).1 = some db.next_session_id ∧
      (save_collection data source metadata now db).2.sessions =
        db.sessions ++
          [{ id := db.next_session_id, source := source, collected_at := now,
             item_count := data.size, metadata := metadata, created_at := now }]) ∧
    (∀ sid (db : DB), (∀ r ∈ db.reddit_posts, r.session_id ≠ sid) →
      (get_session_data sid "reddit" db).1 = []) ∧
    (∀ sid (db : DB), (∀ r ∈ db.github_repos, r.session_id ≠ sid) →
      (get_session_data sid "github" db).1 = []) ∧
    (∀ sid (db : DB), (∀ r ∈ db.hackernews_stories, r.session_id ≠ sid) →
      (get_session_data sid "hackernews" db).1 = []) := by
  refine ⟨?_, ?_, ?_, ?_, ?_⟩
  · intro sid db
    simp [get_session_data, h1, h2, h3]
  · intro data metadata now db h
    exact ⟨(save_collection_sessions data source metadata now db h).1,
      (save_collection_sessions data source metadata now db h).2.1⟩
  · intro sid db h
    have hfl : db.reddit_posts.filter (fun r => r.session_id == sid) = [] := by
      rw [List.filter_eq_nil_iff]
      intro r hr
      simpa using h r hr
    simp [get_session_data, reddit_session_rows, hfl, sortBy]
  · intro sid db h
    have hfl : db.github_repos.filter (fun r => r.session_id == sid) = [] := by
      rw [List.filter_eq_nil_iff]
      intro r hr
      simpa using h r hr
    simp [get_session_data, github_session_rows, hfl, sortBy]
  · intro sid db h
    have hfl : db.hackernews_stories.filter (fun r => r.session_id == sid) = [] := by
      rw [List.filter_eq_nil_iff]
      intro r hr
      simpa using h r hr
    simp [get_session_data, hackernews_session_rows, hfl, sortBy]

/-- C3 witness: the amended behavior at the concrete `"bogus"` state. -/
theorem c3_unknown_source_not_rejected_witness :
    ("bogus" ≠ "reddit" ∧ "bogus" ≠ "github" ∧ "bogus" ≠ "hackernews") ∧
    get_session_data 5 "bogus" c3db = ([], c3db) ∧
    (save_collection (.github [ghItem 9 2 2]) "bogus" none 150 c3db).1 =
      some c3db.next_session_id ∧
    (get_session_data 42 "github" c3db).1 = [] :=
  ⟨⟨by decide, by decide, by decide⟩,
   (c3_unknown_source_not_rejected "bogus" (by decide) (by decide) (by decide)).1 5 c3db,
   ((c3_unknown_source_not_rejected "bogus" (by decide) (by decide) (by decide)).2.1
     (.github [ghItem 9 2 2]) none 150 c3db (by decide)).1,
   (c3_unknown_source_not_rejected "bogus" (by decide) (by decide) (by decide)).2.2.2.1 42 c3db
     (by decide)⟩

/-- C7 counterexample: `get_recent_sessions` performs no check on
`limit`.  At a state with two reddit sessions, `limit = 0` returns the
empty list and `limit = -1` returns every session (SQLite's negative
LIMIT means "no limit"), both ordinary values — no `InvalidArgument`
failure exists anywhere on this path. -/
theorem c7_counterexample :
    (get_recent_sessions "reddit" 0 c8db).1 = [] ∧
    (get_recent_sessions "reddit" (-1) c8db).1 =
      [{ id := 2, source := "reddit", collected_at := 200, item_count := 1,
         metadata := none, created_at := 200 },
       { id := 1, source := "reddit", collected_at := 100, item_count := 1,
         metadata := none, created_at := 100 }] ∧
    (get_recent_sessions "reddit" (-1) c8db).2 = c8db := by
  refine ⟨by decide, by decide, by decide⟩

/-- C7 amended: `limit ≤ 0` is not rejected (`limit = 0` yields the
empty list, a negative `limit` yields all sessions of the source); for
`limit > 0` the result is the `limit` most recent sessions of the
source, descending by `collected_at`: its members are sessions of the
source, it is sorted descending, it has `min limit count` entries, and
every session of the source left out is no newer than any returned
one. -/
theorem c7_recent_sessions_desc (source : String) (limit : Int) (db : DB) (h : 0 < limit) :
    (∀ s ∈ (get_recent_sessions source limit db).1, s ∈ db.sessions ∧ s.source = source) ∧
    (get_recent_sessions source limit db).1.Pairwise
      (fun a b => b.collected_at ≤ a.collected_at) ∧
    (get_recent_sessions source limit db).1.length =
      min limit.toNat (db.sessions.filter (fun s => s.source == source)).length ∧
    (∀ s ∈ db.sessions, s.source = source → s ∉ (get_recent_sessions source limit db).1 →
      ∀ r ∈ (get_recent_sessions source limit db).1, s.collected_at ≤ r.collected_at) := by
  have hneg : ¬ limit < 0 := by omega
  have hres : (get_recent_sessions source limit db).1 =
      (sortBy (fun a b => decide (b.collected_at ≤ a.collected_at))
        (db.sessions.filter (fun s => s.source == source))).take limit.toNat := by
    unfold get_recent_sessions
    simp [hneg]
  have htot : ∀ a b : SessionRow, (decide (b.collected_at ≤ a.collected_at)) = true ∨
      (decide (a.collected_at ≤ b.collected_at)) = true := by
    intro a b
    rcases le_total b.collected_at a.collected_at with hab | hab
    · exact Or.inl (decide_eq_true hab)
    · exact Or.inr (decide_eq_true hab)
  have htrans : ∀ a b c : SessionRow, (decide (b.collected_at ≤ a.collected_at)) = true →
      (decide (c.collected_at ≤ b.collected_at)) = true →
      (decide (c.collected_at ≤ a.collected_at)) = true := by
    intro a b c h1 h2
    exact decide_eq_true (le_trans (of_decide_eq_true h2) (of_decide_eq_true h1))
  have hp := pairwise_sortBy htot htrans (db.sessions.filter (fun s => s.source == source))
  refine ⟨?_, ?_, ?_, ?_⟩
  · intro s hs
    rw [hres] at hs
    have hs2 := (sortBy_perm _ _).mem_iff.mp (List.mem_of_mem_take hs)
    rcases List.mem_filter.mp hs2 with ⟨hmem, hsrc⟩
    exact ⟨hmem, by simpa using hsrc⟩
  · rw [hres]
    exact ((hp.sublist (List.take_sublist _ _)).imp (fun hab => of_decide_eq_true hab))
  · rw [hres, List.length_take, (sortBy_perm _ _).length_eq]
  · intro s hs hsrc hnot r hr
    rw [hres] at hnot hr
    have hsf : s ∈ db.sessions.filter (fun x => x.source == source) :=
      List.mem_filter.mpr ⟨hs, by simp [hsrc]⟩
    have hss : s ∈ sortBy (fun a b => decide (b.collected_at ≤ a.collected_at))
        (db.sessions.filter (fun x => x.source == source)) :=
      (sortBy_perm _ _).mem_iff.mpr hsf
    rw [← List.take_append_drop limit.toNat
      (sortBy (fun a b => decide (b.collected_at ≤ a.collected_at))
        (db.sessions.filter (fun x => x.source == source)))] at hss hp
    rcases List.mem_append.mp hss with hcase | hcase
    · exact absurd hcase hnot
    · rcases List.pairwise_append.mp hp with ⟨_, _, hcross⟩
      exact of_decide_eq_true (hcross r hr s hcase)

/-- C7 witness: the amended description at a concrete state and
`limit = 1`. -/
theorem c7_recent_sessions_desc_witness :
    (0 : Int) < 1 ∧
    (∀ s ∈ (get_recent_sessions "reddit" 1 c8db).1, s ∈ c8db.sessions ∧ s.source = "reddit") ∧
    (get_recent_sessions "reddit" 1 c8db).1.length =
      min (1 : Int).toNat (c8db.sessions.filter (fun s => s.source == "reddit")).length :=
  ⟨by decide, (c7_recent_sessions_desc "reddit" 1 c8db (by decide)).1,
   (c7_recent_sessions_desc "reddit" 1 c8db (by decide)).2.2.1⟩

/-- A non-empty reddit batch saved under `"reddit"` lands in
`reddit_posts` via `_save_reddit_data`. -/
theorem save_collection_reddit_tbl (items : List RedditItem) (metadata : Option String)
    (now : Int) (db : DB) (h : items ≠ []) :
    (save_collection (.reddit items) "reddit" metadata now db).2.reddit_posts =
      _save_reddit_data items db.next_session_id now db.reddit_posts := by
  have hsz : (Batch.reddit items).size ≠ 0 := by
    intro hc
    exact h (List.length_eq_zero.mp hc)
  unfold save_collection
  simp [hsz]

/-- A non-empty github batch saved under `"github"` lands in
`github_repos` via `_save_github_data`. -/
theorem save_collection_github_tbl (items : List GithubItem) (metadata : Option String)
    (now : Int) (db : DB) (h : items ≠ []) :
    (save_collection (.github items) "github" metadata now db).2.github_repos =
      _save_github_data items db.next_session_id now db.github_repos := by
  have hsz : (Batch.github items).size ≠ 0 := by
    intro hc
    exact h (List.length_eq_zero.mp hc)
  unfold save_collection
  simp [hsz]

/-- C5: in every reachable state each per-source item table holds at
most one row per natural id, and re-running `save_collection` with an
item whose natural id is already stored (or not) leaves exactly one row
with that id, owned by the new session — the upsert replaces the row in
place regardless of which session previously wrote it. -/
theorem c5_natural_id_upsert {db : DB} (h : Reachable db) :
    (∀ i : String, (db.reddit_posts.filter (fun r => r.id == i)).length ≤ 1) ∧
    (∀ i : Int, (db.github_repos.filter (fun r => r.id == i)).length ≤ 1) ∧
    (∀ i : Int, (db.hackernews_stories.filter (fun r => r.id == i)).length ≤ 1) ∧
    (∀ (items : List RedditItem) metadata now (i : String), (∃ it ∈ items, it.id = i) →
      ((save_collection (.reddit items) "reddit" metadata now db).2.reddit_posts.filter
          (fun r => r.id == i)).length = 1 ∧
      (∀ r ∈ (save_collection (.reddit items) "reddit" metadata now db).2.reddit_posts.filter
          (fun r => r.id == i), r.session_id = db.next_session_id)) ∧
    (∀ (items : List GithubItem) metadata now (i : Int), (∃ it ∈ items, it.id = i) →
      ((save_collection (.github items) "github" metadata now db).2.github_repos.filter
          (fun r => r.id == i)).length = 1 ∧
      (∀ r ∈ (save_collection (.github items) "github" metadata now db).2.github_repos.filter
          (fun r => r.id == i), r.session_id = db.next_session_id)) := by
  rcases reachable_nodup_ids h with ⟨hr, hg, hh⟩
  refine ⟨fun i => count_le_one_of_nodup_keys RedditRow.id hr i,
    fun i => count_le_one_of_nodup_keys GithubRow.id hg i,
    fun i => count_le_one_of_nodup_keys HNRow.id hh i, ?_, ?_⟩
  · intro items metadata now i hex
    rcases hex with ⟨it, hit, hid⟩
    have hne : items ≠ [] := List.ne_nil_of_mem hit
    rw [save_collection_reddit_tbl items metadata now db hne]
    unfold _save_reddit_data
    rcases filter_upsertFold_mem RedditRow.id (redditRowOf db.next_session_id now) items
      db.reddit_posts ⟨it, hit, hid⟩ with ⟨it2, _, _, hfl⟩
    refine ⟨by rw [hfl]; rfl, ?_⟩
    intro r hrr
    rw [hfl] at hrr
    rw [List.mem_singleton.mp hrr]
    rfl
  · intro items metadata now i hex
    rcases hex with ⟨it, hit, hid⟩
    have hne : items ≠ [] := List.ne_nil_of_mem hit
    rw [save_collection_github_tbl items metadata now db hne]
    unfold _save_github_data
    rcases filter_upsertFold_mem GithubRow.id (githubRowOf db.next_session_id now) items
      db.github_repos ⟨it, hit, hid⟩ with ⟨it2, _, _, hfl⟩
    refine ⟨by rw [hfl]; rfl, ?_⟩
    intro r hrr
    rw [hfl] at hrr
    rw [List.mem_singleton.mp hrr]
    rfl

/-- C5 witness: the scenario state — after re-saving natural id 1 in
session B, the github table still holds exactly one row with id 1. -/
theorem c5_natural_id_upsert_witness :
    ((c1dbA.github_repos.filter (fun r => r.id == (1 : Int))).length ≤ 1) ∧
    (((save_collection (.github c1ItemsB) "github" none 200 c1dbA).2.github_repos.filter
        (fun r => r.id == (1 : Int))).length = 1) := by
  have hreach : Reachable c1dbA :=
    Reachable.step (.github c1ItemsA) "github" none 100 Reachable.init
  exact ⟨(c5_natural_id_upsert hreach).2.1 1,
    ((c5_natural_id_upsert hreach).2.2.2.2 c1ItemsB none 200 1
      ⟨ghItem 1 15 3, by decide, rfl⟩).1⟩

theorem isEmpty_false_of_ne_nil {α : Type} {l : List α} (h : l ≠ []) : l.isEmpty = false := by
  cases l with
  | nil => exact absurd rfl h
  | cons a l => rfl

/-- C4: `compare_sessions` returns the error dict — its
`SessionDataMissing` failure — whenever either session has no stored
items; when both have items it reports
`count_change = len(data2) - len(data1)` and `count_change_percent =
(len(data2) - len(data1)) / len(data1) * 100`, and the zero-baseline
branch of the percent (old count 0) yields exactly 0. -/
theorem c4_compare_missing_sessions (source : String) (sid1 sid2 : Nat) (db : DB) :
    ((get_session_data sid1 source db).1 = [] ∨ (get_session_data sid2 source db).1 = [] →
      compare_sessions source sid1 sid2 db =
        (.err "세션 데이터를 찾을 수 없습니다.", db)) ∧
    ((get_session_data sid1 source db).1 ≠ [] → (get_session_data sid2 source db).1 ≠ [] →
      (compare_sessions source sid1 sid2 db).1.countChange =
        some (((get_session_data sid2 source db).1.length : Int) -
          ((get_session_data sid1 source db).1.length : Int)) ∧
      (compare_sessions source sid1 sid2 db).1.countChangePercent =
        some ((((get_session_data sid2 source db).1.length : ℚ) -
          ((get_session_data sid1 source db).1.length : ℚ)) /
          ((get_session_data sid1 source db).1.length : ℚ) * 100) ∧
      ((get_session_data sid1 source db).1.length = 0 →
        (compare_sessions source sid1 sid2 db).1.countChangePercent = some 0)) := by
  constructor
  · intro hcase
    have hguard : ((get_session_data sid1 source db).1.isEmpty ||
        (get_session_data sid2 source db).1.isEmpty) = true := by
      rcases hcase with hc | hc <;> simp [hc]
    unfold compare_sessions
    simp only [hguard, if_true]
  · intro h1 h2
    have hb1 := isEmpty_false_of_ne_nil h1
    have hb2 := isEmpty_false_of_ne_nil h2
    have hpos : 0 < (get_session_data sid1 source db).1.length := List.length_pos.mpr h1
    unfold compare_sessions
    simp only [hb1, hb2, Bool.or_self, Bool.false_eq_true, if_false,
      CompareResult.countChange, CompareResult.countChangePercent]
    refine ⟨trivial, ?_, ?_⟩
    · simp [hpos]
    · intro h0
      exact absurd (List.length_eq_zero.mp h0) h1

/-- C4 witness: the scenario state — comparing against the absent
session 99 fails, comparing sessions 1 and 2 yields the count delta. -/
theorem c4_compare_missing_sessions_witness :
    ((get_session_data 99 "github" c1db).1 = [] ∨ False) ∧
    compare_sessions "github" 99 2 c1db =
      (.err "세션 데이터를 찾을 수 없습니다.", c1db) ∧
    ((get_session_data 1 "github" c1db).1 ≠ [] ∧ (get_session_data 2 "github" c1db).1 ≠ []) ∧
    (compare_sessions "github" 1 2 c1db).1.countChange =
      some (((get_session_data 2 "github" c1db).1.length : Int) -
        ((get_session_data 1 "github" c1db).1.length : Int)) :=
  ⟨Or.inl (by decide),
   (c4_compare_missing_sessions "github" 99 2 c1db).1 (Or.inl (by decide)),
   ⟨by decide, by decide⟩,
   ((c4_compare_missing_sessions "github" 1 2 c1db).2 (by decide) (by decide)).1⟩

/-! ### The metric blocks produced by a successful comparison -/

theorem compare_metric_reddit (sid1 sid2 : Nat) (db : DB)
    (h1 : reddit_session_rows sid1 db ≠ []) (h2 : reddit_session_rows sid2 db ≠ []) :
    (compare_sessions "reddit" sid1 sid2 db).1.metric "score" =
      some (metricCompare ((reddit_session_rows sid1 db).map RedditRow.score)
        ((reddit_session_rows sid2 db).map RedditRow.score)) ∧
    (compare_sessions "reddit" sid1 sid2 db).1.metric "comments" =
      some (metricCompare ((reddit_session_rows sid1 db).map RedditRow.num_comments)
        ((reddit_session_rows sid2 db).map RedditRow.num_comments)) := by
  have e1 : (get_session_data sid1 "reddit" db).1 =
      (reddit_session_rows sid1 db).map ItemRow.reddit := by
    simp [get_session_data]
  have e2 : (get_session_data sid2 "reddit" db).1 =
      (reddit_session_rows sid2 db).map ItemRow.reddit := by
    simp [get_session_data]
  have hb1 : (get_session_data sid1 "reddit" db).1.isEmpty = false := by
    apply isEmpty_false_of_ne_nil
    rw [e1]
    intro hc
    exact h1 (List.map_eq_nil_iff.mp hc)
  have hb2 : (get_session_data sid2 "reddit" db).1.isEmpty = false := by
    apply isEmpty_false_of_ne_nil
    rw [e2]
    intro hc
    exact h2 (List.map_eq_nil_iff.mp hc)
  unfold compare_sessions
  simp only [hb1, hb2, Bool.or_self, Bool.false_eq_true, if_false, CompareResult.metric]
  simp [_compare_reddit, List.lookup]

theorem compare_metric_github (sid1 sid2 : Nat) (db : DB)
    (h1 : github_session_rows sid1 db ≠ []) (h2 : github_session_rows sid2 db ≠ []) :
    (compare_sessions "github" sid1 sid2 db).1.metric "stars" =
      some (metricCompare ((github_session_rows sid1 db).map GithubRow.stars)
        ((github_session_rows sid2 db).map GithubRow.stars)) ∧
    (compare_sessions "github" sid1 sid2 db).1.metric "forks" =
      some (metricCompare ((github_session_rows sid1 db).map GithubRow.forks)
        ((github_session_rows sid2 db).map GithubRow.forks)) := by
  have e1 : (get_session_data sid1 "github" db).1 =
      (github_session_rows sid1 db).map ItemRow.github := by
    simp [get_session_data]
  have e2 : (get_session_data sid2 "github" db).1 =
      (github_session_rows sid2 db).map ItemRow.github := by
    simp [get_session_data]
  have hb1 : (get_session_data sid1 "github" db).1.isEmpty = false := by
    apply isEmpty_false_of_ne_nil
    rw [e1]
    intro hc
    exact h1 (List.map_eq_nil_iff.mp hc)
  have hb2 : (get_session_data sid2 "github" db).1.isEmpty = false := by
    apply isEmpty_false_of_ne_nil
    rw [e2]
    intro hc
    exact h2 (List.map_eq_nil_iff.mp hc)
  unfold compare_sessions
  simp only [hb1, hb2, Bool.or_self, Bool.false_eq_true, if_false, CompareResult.metric]
  simp [_compare_github, List.lookup]

theorem compare_metric_hackernews (sid1 sid2 : Nat) (db : DB)
    (h1 : hackernews_session_rows sid1 db ≠ []) (h2 : hackernews_session_rows sid2 db ≠ []) :
    (compare_sessions "hackernews" sid1 sid2 db).1.metric "score" =
      some (metricCompare ((hackernews_session_rows sid1 db).map HNRow.score)
        ((hackernews_session_rows sid2 db).map HNRow.score)) ∧
    (compare_sessions "hackernews" sid1 sid2 db).1.metric "comments" =
      some (metricCompare ((hackernews_session_rows sid1 db).map HNRow.descendants)
        ((hackernews_session_rows sid2 db).map HNRow.descendants)) := by
  have e1 : (get_session_data sid1 "hackernews" db).1 =
      (hackernews_session_rows sid1 db).map ItemRow.hackernews := by
    simp [get_session_data]
  have e2 : (get_session_data sid2 "hackernews" db).1 =
      (hackernews_session_rows sid2 db).map ItemRow.hackernews := by
    simp [get_session_data]
  have hb1 : (get_session_data sid1 "hackernews" db).1.isEmpty = false := by
    apply isEmpty_false_of_ne_nil
    rw [e1]
    intro hc
    exact h1 (List.map_eq_nil_iff.mp hc)
  have hb2 : (get_session_data sid2 "hackernews" db).1.isEmpty = false := by
    apply isEmpty_false_of_ne_nil
    rw [e2]
    intro hc
    exact h2 (List.map_eq_nil_iff.mp hc)
  unfold compare_sessions
  simp only [hb1, hb2, Bool.or_self, Bool.false_eq_true, if_false, CompareResult.metric]
  simp [_compare_hackernews, List.lookup]

/-- Sorting a table does not change a column's mean (`ORDER BY` is a
permutation). -/
theorem intMean_map_sortBy {α : Type} (le : α → α → Bool) (f : α → Int) (l : List α) :
    intMean ((sortBy le l).map f) = intMean (l.map f) := by
  have hp : ((sortBy le l).map f).Perm (l.map f) := (sortBy_perm le l).map f
  unfold intMean
  rw [hp.length_eq, (hp.map (fun n : Int => (n : ℚ))).sum_eq]

/-- C1 counterexample: in the spec's github scenario the upsert of
natural id 1 re-assigns its row to session B, so session A retains only
item 2.  `compare_sessions(github, A, B)` therefore reports
`count_change = 1` (the claim says 0) and `stars.session1_mean = 5.0`
(the claim says 7.5). -/
theorem c1_counterexample :
    (compare_sessions "github" 1 2 c1db).1.countChange = some 1 ∧
    (compare_sessions "github" 1 2 c1db).1.countChange ≠ some 0 ∧
    ((compare_sessions "github" 1 2 c1db).1.metric "stars").map MetricCompare.session1_mean =
      some 5 ∧
    ((compare_sessions "github" 1 2 c1db).1.metric "stars").map MetricCompare.session1_mean ≠
      some (15 / 2 : ℚ) := by
  have hrows1 : github_session_rows 1 c1db = [githubRowOf 1 100 (ghItem 2 5 1)] := by decide
  have hrows2 : github_session_rows 2 c1db =
      [githubRowOf 2 200 (ghItem 1 15 3), githubRowOf 2 200 (ghItem 3 8 0)] := by decide
  have hm := (compare_metric_github 1 2 c1db (by decide) (by decide)).1
  rw [hrows1, hrows2] at hm
  refine ⟨by decide, by decide, ?_, ?_⟩
  · rw [hm]
    norm_num [metricCompare, intMean, githubRowOf, ghItem]
  · rw [hm]
    norm_num [metricCompare, intMean, githubRowOf, ghItem]

/-- C1 amended: in the scenario, `getSessionItems(B)` returns exactly
the natural ids {1, 3} (in stars order), and `compareSessions(github,
A, B)` reports `count_change = 1`, `stars.session1_mean = 5.0` and
`stars.session2_mean = 11.5`, because the upsert of id 1 re-assigned
its `session_id` to B and removed it from session A's item set. -/
theorem c1_scenario_after_upsert :
    ((get_session_data 2 "github" c1db).1.map ItemRow.naturalId) =
      [Sum.inr 1, Sum.inr 3] ∧
    (compare_sessions "github" 1 2 c1db).1.countChange = some 1 ∧
    ((compare_sessions "github" 1 2 c1db).1.metric "stars").map MetricCompare.session1_mean =
      some 5 ∧
    ((compare_sessions "github" 1 2 c1db).1.metric "stars").map MetricCompare.session2_mean =
      some (23 / 2 : ℚ) := by
  have hrows1 : github_session_rows 1 c1db = [githubRowOf 1 100 (ghItem 2 5 1)] := by decide
  have hrows2 : github_session_rows 2 c1db =
      [githubRowOf 2 200 (ghItem 1 15 3), githubRowOf 2 200 (ghItem 3 8 0)] := by decide
  have hm := (compare_metric_github 1 2 c1db (by decide) (by decide)).1
  rw [hrows1, hrows2] at hm
  refine ⟨by decide, by decide, ?_, ?_⟩
  · rw [hm]
    norm_num [metricCompare, intMean, githubRowOf, ghItem]
  · rw [hm]
    norm_num [metricCompare, intMean, githubRowOf, ghItem]

/-! ### The change-percent policy (C8) -/

/-- The score (resp. stars) column of one session's stored rows, read
straight off the table. -/
def redditSessionCol (f : RedditRow → Int) (sid : Nat) (db : DB) : List Int :=
  (db.reddit_posts.filter (fun r => r.session_id == sid)).map f

def githubSessionCol (f : GithubRow → Int) (sid : Nat) (db : DB) : List Int :=
  (db.github_repos.filter (fun r => r.session_id == sid)).map f

def hackernewsSessionCol (f : HNRow → Int) (sid : Nat) (db : DB) : List Int :=
  (db.hackernews_stories.filter (fun r => r.session_id == sid)).map f

/-- What a metric block actually contains: the two column means, their
difference, and a percent that follows the formula only when the old
mean is strictly positive and is 0 whenever the old mean is ≤ 0. -/
def metricFollowsGuard (res : CompareResult) (key : String) (col1 col2 : List Int) : Prop :=
  ∃ mc, res.metric key = some mc ∧
    mc.session1_mean = intMean col1 ∧
    mc.session2_mean = intMean col2 ∧
    mc.change = intMean col2 - intMean col1 ∧
    (0 < intMean col1 →
      mc.change_percent = (intMean col2 - intMean col1) / intMean col1 * 100) ∧
    (intMean col1 ≤ 0 → mc.change_percent = 0)

theorem metricCompare_follows_guard (res : CompareResult) (key : String)
    (col1 col2 : List Int) (h : res.metric key = some (metricCompare col1 col2)) :
    metricFollowsGuard res key col1 col2 := by
  refine ⟨metricCompare col1 col2, h, rfl, rfl, rfl, ?_, ?_⟩
  · intro hpos
    simp [metricCompare, hpos]
  · intro hz
    have : ¬ 0 < intMean col1 := not_lt.mpr hz
    simp [metricCompare, this]

/-- C8 amended: for every pair of item-bearing sessions and each primary
metric field, `change_percent` equals
`(new_mean - old_mean) / old_mean * 100` whenever the old mean is
strictly positive, and is 0 whenever the old mean is ≤ 0 — the code's
guard is `mean > 0`, not `mean != 0`, so a negative old mean also takes
the zero branch. -/
theorem c8_change_percent_guard (db : DB) (sid1 sid2 : Nat) :
    (reddit_session_rows sid1 db ≠ [] → reddit_session_rows sid2 db ≠ [] →
      metricFollowsGuard (compare_sessions "reddit" sid1 sid2 db).1 "score"
        (redditSessionCol RedditRow.score sid1 db) (redditSessionCol RedditRow.score sid2 db) ∧
      metricFollowsGuard (compare_sessions "reddit" sid1 sid2 db).1 "comments"
        (redditSessionCol RedditRow.num_comments sid1 db)
        (redditSessionCol RedditRow.num_comments sid2 db)) ∧
    (github_session_rows sid1 db ≠ [] → github_session_rows sid2 db ≠ [] →
      metricFollowsGuard (compare_sessions "github" sid1 sid2 db).1 "stars"
        (githubSessionCol GithubRow.stars sid1 db) (githubSessionCol GithubRow.stars sid2 db) ∧
      metricFollowsGuard (compare_sessions "github" sid1 sid2 db).1 "forks"
        (githubSessionCol GithubRow.forks sid1 db) (githubSessionCol GithubRow.forks sid2 db)) ∧
    (hackernews_session_rows sid1 db ≠ [] → hackernews_session_rows sid2 db ≠ [] →
      metricFollowsGuard (compare_sessions "hackernews" sid1 sid2 db).1 "score"
        (hackernewsSessionCol HNRow.score sid1 db) (hackernewsSessionCol HNRow.score sid2 db) ∧
      metricFollowsGuard (compare_sessions "hackernews" sid1 sid2 db).1 "comments"
        (hackernewsSessionCol HNRow.descendants sid1 db)
        (hackernewsSessionCol HNRow.descendants sid2 db)) := by
  have hmean : ∀ (f : RedditRow → Int) (sid : Nat),
      intMean ((reddit_session_rows sid db).map f) = intMean (redditSessionCol f sid db) := by
    intro f sid
    unfold reddit_session_rows redditSessionCol
    exact intMean_map_sortBy _ f _
  have hmeang : ∀ (f : GithubRow → Int) (sid : Nat),
      intMean ((github_session_rows sid db).map f) = intMean (githubSessionCol f sid db) := by
    intro f sid
    unfold github_session_rows githubSessionCol
    exact intMean_map_sortBy _ f _
  have hmeanh : ∀ (f : HNRow → Int) (sid : Nat),
      intMean ((hackernews_session_rows sid db).map f) =
        intMean (hackernewsSessionCol f sid db) := by
    intro f sid
    unfold hackernews_session_rows hackernewsSessionCol
    exact intMean_map_sortBy _ f _
  refine ⟨?_, ?_, ?_⟩
  · intro h1 h2
    rcases compare_metric_reddit sid1 sid2 db h1 h2 with ⟨hs, hc⟩
    constructor
    · have hg := metricCompare_follows_guard _ "score" _ _ hs
      unfold metricFollowsGuard
      rw [← hmean RedditRow.score sid1, ← hmean RedditRow.score sid2]
      exact hg
    · have hg := metricCompare_follows_guard _ "comments" _ _ hc
      unfold metricFollowsGuard
      rw [← hmean RedditRow.num_comments sid1, ← hmean RedditRow.num_comments sid2]
      exact hg
  · intro h1 h2
    rcases compare_metric_github sid1 sid2 db h1 h2 with ⟨hs, hc⟩
    constructor
    · have hg := metricCompare_follows_guard _ "stars" _ _ hs
      unfold metricFollowsGuard
      rw [← hmeang GithubRow.stars sid1, ← hmeang GithubRow.stars sid2]
      exact hg
    · have hg := metricCompare_follows_guard _ "forks" _ _ hc
      unfold metricFollowsGuard
      rw [← hmeang GithubRow.forks sid1, ← hmeang GithubRow.forks sid2]
      exact hg
  · intro h1 h2
    rcases compare_metric_hackernews sid1 sid2 db h1 h2 with ⟨hs, hc⟩
    constructor
    · have hg := metricCompare_follows_guard _ "score" _ _ hs
      unfold metricFollowsGuard
      rw [← hmeanh HNRow.score sid1, ← hmeanh HNRow.score sid2]
      exact hg
    · have hg := metricCompare_follows_guard _ "comments" _ _ hc
      unfold metricFollowsGuard
      rw [← hmeanh HNRow.descendants sid1, ← hmeanh HNRow.descendants sid2]
      exact hg

/-- C8 counterexample: reddit session 1 holds a single post of score -5
(a negative, nonzero mean), session 2 a single post of score 10.  The
claim's formula gives `(10 - (-5)) / (-5) * 100 = -300`, but the code's
`mean > 0` guard routes the negative baseline to the zero branch:
`change_percent` is 0 although the old mean is nonzero. -/
theorem c8_counterexample :
    ((compare_sessions "reddit" 1 2 c8db).1.metric "score").map MetricCompare.session1_mean =
      some (-5) ∧
    some (-5 : ℚ) ≠ some (0 : ℚ) ∧
    ((compare_sessions "reddit" 1 2 c8db).1.metric "score").map MetricCompare.change_percent =
      some 0 ∧
    some (0 : ℚ) ≠ some (((10 : ℚ) - (-5 : ℚ)) / (-5 : ℚ) * 100) := by
  have hrows1 : reddit_session_rows 1 c8db = [redditRowOf 1 100 (rdItem "a" (-5) 0)] := by
    decide
  have hrows2 : reddit_session_rows 2 c8db = [redditRowOf 2 200 (rdItem "b" 10 0)] := by
    decide
  have hm := (compare_metric_reddit 1 2 c8db (by decide) (by decide)).1
  rw [hrows1, hrows2] at hm
  refine ⟨?_, by norm_num, ?_, by norm_num⟩
  · rw [hm]
    norm_num [metricCompare, intMean, redditRowOf, rdItem]
  · rw [hm]
    norm_num [metricCompare, intMean, redditRowOf, rdItem]

/-- C8 witness: the guarded policy at the concrete reddit state. -/
theorem c8_change_percent_guard_witness :
    (reddit_session_rows 1 c8db ≠ [] ∧ reddit_session_rows 2 c8db ≠ []) ∧
    metricFollowsGuard (compare_sessions "reddit" 1 2 c8db).1 "score"
      (redditSessionCol RedditRow.score 1 c8db) (redditSessionCol RedditRow.score 2 c8db) :=
  ⟨⟨by decide, by decide⟩,
   ((c8_change_percent_guard c8db 1 2).1 (by decide) (by decide)).1⟩

/-! ### The trend window (C6) -/

theorem trendEntry_some_fields {source : String} {db : DB} {s : SessionRow} {t : TrendItem}
    (h : trendEntry source db s = some t) :
    t.session_id = s.id ∧ t.date = s.collected_at := by
  unfold trendEntry at h
  dsimp only at h
  split_ifs at h
  all_goals first
    | exact Option.noConfusion h
    | (cases h; exact ⟨rfl, rfl⟩)

/-- C6: under the clock invariant that no stored session is dated after
the query time (every session's `collected_at` was a past
`datetime.now()`), `get_trend_data(source, days)` emits entries exactly
for the sessions of the source in the inclusive trailing window
`[now - days, now]` (those with items; an empty session is skipped as
specified), ordered ascending by `collected_at` — a session outside the
window never contributes an entry. -/
theorem c6_trend_window (source : String) (days : Nat) (now : Int) (db : DB)
    (hpast : ∀ s ∈ db.sessions, s.collected_at ≤ now) :
    (∀ t ∈ (get_trend_data source days now db).1, ∃ s ∈ db.sessions,
        s.id = t.session_id ∧ s.source = source ∧ t.date = s.collected_at ∧
        now - (days : Int) * secondsPerDay ≤ s.collected_at ∧ s.collected_at ≤ now) ∧
    (∀ s ∈ db.sessions, s.source = source →
        now - (days : Int) * secondsPerDay ≤ s.collected_at →
        (get_session_data s.id source db).1 ≠ [] →
        ∃ t ∈ (get_trend_data source days now db).1,
          t.session_id = s.id ∧ t.date = s.collected_at) ∧
    (get_trend_data source days now db).1.Pairwise (fun a b => a.date ≤ b.date) := by
  have hresult : (get_trend_data source days now db).1 =
      (sortBy (fun a b => decide (a.collected_at ≤ b.collected_at))
        (db.sessions.filter
          (fun s => s.source == source &&
            decide (now - (days : Int) * secondsPerDay ≤ s.collected_at)))).filterMap
        (trendEntry source db) := rfl
  refine ⟨?_, ?_, ?_⟩
  · intro t ht
    rw [hresult] at ht
    rcases List.mem_filterMap.mp ht with ⟨s, hsl, hfs⟩
    have hsf := (sortBy_perm _ _).mem_iff.mp hsl
    rcases List.mem_filter.mp hsf with ⟨hmem, hcond⟩
    simp only [Bool.and_eq_true, beq_iff_eq, decide_eq_true_eq] at hcond
    rcases trendEntry_some_fields hfs with ⟨hsid, hdate⟩
    exact ⟨s, hmem, hsid.symm, hcond.1, hdate, hcond.2, hpast s hmem⟩
  · intro s hmem hsrc hwin hne
    have hcond : (s.source == source &&
        decide (now - (days : Int) * secondsPerDay ≤ s.collected_at)) = true := by
      simp [hsrc, hwin]
    have hsl := (sortBy_perm (fun a b => decide (a.collected_at ≤ b.collected_at))
      (db.sessions.filter
        (fun x => x.source == source &&
          decide (now - (days : Int) * secondsPerDay ≤ x.collected_at)))).mem_iff.mpr
      (List.mem_filter.mpr ⟨hmem, hcond⟩)
    rw [hresult]
    by_cases hr : source = "reddit"
    · subst hr
      have hrows : reddit_session_rows s.id db ≠ [] := by
        intro hc
        apply hne
        simp [get_session_data, hc]
      obtain ⟨t, hf⟩ : ∃ t, trendEntry "reddit" db s = some t := by
        simp [trendEntry, isEmpty_false_of_ne_nil hrows]
      exact ⟨t, List.mem_filterMap.mpr ⟨s, hsl, hf⟩, (trendEntry_some_fields hf).1,
        (trendEntry_some_fields hf).2⟩
    · by_cases hg : source = "github"
      · subst hg
        have hrows : github_session_rows s.id db ≠ [] := by
          intro hc
          apply hne
          simp [get_session_data, hc]
        obtain ⟨t, hf⟩ : ∃ t, trendEntry "github" db s = some t := by
          simp [trendEntry, isEmpty_false_of_ne_nil hrows]
        exact ⟨t, List.mem_filterMap.mpr ⟨s, hsl, hf⟩, (trendEntry_some_fields hf).1,
          (trendEntry_some_fields hf).2⟩
      · by_cases hh : source = "hackernews"
        · subst hh
          have hrows : hackernews_session_rows s.id db ≠ [] := by
            intro hc
            apply hne
            simp [get_session_data, hc]
          obtain ⟨t, hf⟩ : ∃ t, trendEntry "hackernews" db s = some t := by
            simp [trendEntry, isEmpty_false_of_ne_nil hrows, hr, hg]
          exact ⟨t, List.mem_filterMap.mpr ⟨s, hsl, hf⟩, (trendEntry_some_fields hf).1,
            (trendEntry_some_fields hf).2⟩
        · exfalso
          apply hne
          simp [get_session_data, hr, hg, hh]
  · have htot : ∀ a b : SessionRow, (decide (a.collected_at ≤ b.collected_at)) = true ∨
        (decide (b.collected_at ≤ a.collected_at)) = true := by
      intro a b
      rcases le_total a.collected_at b.collected_at with hab | hab
      · exact Or.inl (decide_eq_true hab)
      · exact Or.inr (decide_eq_true hab)
    have htrans : ∀ a b c : SessionRow, (decide (a.collected_at ≤ b.collected_at)) = true →
        (decide (b.collected_at ≤ c.collected_at)) = true →
        (decide (a.collected_at ≤ c.collected_at)) = true := by
      intro a b c h1 h2
      exact decide_eq_true (le_trans (of_decide_eq_true h1) (of_decide_eq_true h2))
    have hp := pairwise_sortBy htot htrans
      (db.sessions.filter
        (fun s => s.source == source &&
          decide (now - (days : Int) * secondsPerDay ≤ s.collected_at)))
    rw [hresult]
    rw [List.pairwise_filterMap]
    refine hp.imp ?_
    intro a b hab x hx y hy
    rcases trendEntry_some_fields (Option.mem_def.mp hx) with ⟨_, hxd⟩
    rcases trendEntry_some_fields (Option.mem_def.mp hy) with ⟨_, hyd⟩
    rw [hxd, hyd]
    exact of_decide_eq_true hab

/-- C6 witness: the scenario state queried at time 200 with a 7-day
window. -/
theorem c6_trend_window_witness :
    (∀ s ∈ c1db.sessions, s.collected_at ≤ 200) ∧
    (get_trend_data "github" 7 200 c1db).1.Pairwise (fun a b => a.date ≤ b.date) :=
  ⟨by decide, (c6_trend_window "github" 7 200 c1db (by decide)).2.2⟩

/-- C9: both normalizers cap the free-text field at 500 characters
(`[:500]`), and an input of at most 500 characters passes through
unchanged. -/
theorem c9_text_truncated_500 :
    (∀ raw : RedditRaw, ((redditNormalize raw).selftext.getD "").length ≤ 500) ∧
    (∀ raw : RedditRaw, ∀ s, raw.selftext = some s → s.length ≤ 500 →
      (redditNormalize raw).selftext = some s) ∧
    (∀ raw : HNRaw, ((hnNormalize raw).text.getD "").length ≤ 500) ∧
    (∀ raw : HNRaw, ∀ s, raw.text = some s → s.length ≤ 500 →
      (hnNormalize raw).text = some s) := by
  have htake : ∀ (s : String) (n : Nat), (s.take n).length ≤ n := by
    intro s n
    rw [string_length_eq_data_length, String.data_take, List.length_take]
    exact min_le_left _ _
  have htake_eq : ∀ (s : String) (n : Nat), s.length ≤ n → s.take n = s := by
    intro s n h
    apply String.ext
    rw [String.data_take]
    exact List.take_of_length_le h
  refine ⟨?_, ?_, ?_, ?_⟩
  · intro raw
    simp only [redditNormalize, Option.getD_some]
    exact htake _ 500
  · intro raw s hs hlen
    simp only [redditNormalize, hs, Option.getD_some]
    rw [htake_eq s 500 hlen]
  · intro raw
    simp only [hnNormalize, Option.getD_some]
    cases htext : raw.text with
    | none => simp
    | some t =>
      by_cases ht : t.isEmpty
      · simp [ht]
      · simp only [ht, if_false, Bool.false_eq_true]
        exact htake t 500
  · intro raw s hs hlen
    simp only [hnNormalize, hs]
    by_cases hse : s.isEmpty
    · have hs0 : s = "" := (String.isEmpty_iff s).mp hse
      subst hs0
      decide
    · simp only [hse, if_false, Bool.false_eq_true]
      rw [htake_eq s 500 hlen]

/-- C9 witness: a 5-character body passes through both normalizers
unchanged. -/
theorem c9_text_truncated_500_witness :
    ("hello".length ≤ 500 ∧
      (redditNormalize
        { id := "p1", title := none, author := none, score := none, upvote_ratio := none,
          num_comments := none, created_utc := none, url := none, permalink := none,
          subreddit := none, selftext := some "hello" }).selftext = some "hello") ∧
    ((hnNormalize
        { id := 1, title := none, by_user := none, score := none, descendants := none,
          time := none, url := none, text := some "hello" }).text = some "hello") :=
  ⟨⟨by decide,
    c9_text_truncated_500.2.1
      { id := "p1", title := none, author := none, score := none, upvote_ratio := none,
        num_comments := none, created_utc := none, url := none, permalink := none,
        subreddit := none, selftext := some "hello" } "hello" rfl (by decide)⟩,
   c9_text_truncated_500.2.2.2
      { id := 1, title := none, by_user := none, score := none, descendants := none,
        time := none, url := none, text := some "hello" } "hello" rfl (by decide)⟩
